import Mathlib

/-!
Shallow embedding of the scallop-liquidator-lite core logic
(src/liquidator.ts, src/types.ts and the CLI planner in src/index.ts).

Conventions of the embedding:
* JavaScript numbers are modelled as rationals; raw on-chain amounts are
  rationals that the data model intends to be integral.
* JavaScript strings are Lean strings; the string operations used by the
  source (split, toLowerCase, toUpperCase, includes) are re-implemented as
  structural functions over the character list so that they evaluate by rfl.
* The asynchronous chain client is modelled as an explicit environment
  (ChainEnv) recording the responses the chain would give, and the parser
  additionally returns the list of RPC calls it issued, so that properties
  about which fetches happen are expressible.
* Code that can throw is modelled with Except String.
-/

namespace Scallop

/-- Model of String.prototype.toLowerCase, per character over the data list. -/
def jsToLower (s : String) : String :=
  String.mk (s.data.map Char.toLower)

/-- Model of String.prototype.toUpperCase, per character over the data list. -/
def jsToUpper (s : String) : String :=
  String.mk (s.data.map Char.toUpper)

/-- Model of String.prototype.split with the separator string given by
two colon characters, over character lists; structural so it reduces. -/
def splitOnColonsChars : List Char → List (List Char)
  | [] => [[]]
  | ':' :: ':' :: rest => [] :: splitOnColonsChars rest
  | c :: rest =>
    match splitOnColonsChars rest with
    | [] => [[c]]
    | piece :: pieces => (c :: piece) :: pieces

/-- Model of s.split with a double-colon separator, as used by extractCoinInfo. -/
def jsSplitOnDoubleColon (s : String) : List String :=
  (splitOnColonsChars s.data).map String.mk

/-- Helper for strContains: does pat occur as a contiguous run inside the list. -/
def strContainsAux (pat : List Char) : List Char → Bool
  | [] => pat.isEmpty
  | c :: rest => pat.isPrefixOf (c :: rest) || strContainsAux pat rest

/-- Model of String.prototype.includes. -/
def strContains (s pat : String) : Bool :=
  strContainsAux pat.data s.data

/-- The COIN_DECIMALS table from src/liquidator.ts. -/
def COIN_DECIMALS : List (String × Nat) :=
  [("usdc", 6), ("wusdc", 6), ("usdt", 6), ("wusdt", 6), ("sui", 9),
   ("weth", 8), ("eth", 8), ("wbtc", 8), ("cetus", 9), ("apt", 8),
   ("sol", 8), ("wsol", 8), ("sca", 9)]

/-- The value shape of the KNOWN_COIN_TYPES table and of extractCoinInfo results. -/
structure CoinIdentity where
  name : String
  symbol : String
  sdkName : String
deriving Repr, DecidableEq

/-- The KNOWN_COIN_TYPES table from src/liquidator.ts. -/
def KNOWN_COIN_TYPES : List (String × CoinIdentity) :=
  [("dba34672e30cb065b1f93e3ab55318768fd6fef66c15942c9f7cb846e2f900e7::usdc::USDC",
    { name := "USD Coin", symbol := "USDC", sdkName := "usdc" }),
   ("5d4b302506645c37ff133b98c4b50a5ae14841659738d6d733d59d0d217a93bf::coin::COIN",
    { name := "Wormhole USDC", symbol := "wUSDC", sdkName := "wusdc" }),
   ("c060006111016b8a020ad5b33834984a437aaa7d3c74c18e09a95d48aceab08c::coin::COIN",
    { name := "Wormhole USDT", symbol := "wUSDT", sdkName := "wusdt" }),
   ("af8cd5edc19c4512f4259f0bee101a40d41ebed738ade5874359610ef8eeced5::coin::COIN",
    { name := "Wormhole ETH", symbol := "wETH", sdkName := "weth" }),
   ("0000000000000000000000000000000000000000000000000000000000000002::sui::SUI",
    { name := "Sui", symbol := "SUI", sdkName := "sui" }),
   ("06864a6f921804860930db6ddbe2e16acdf8504495ea7481637a1c8b9a8fe54b::cetus::CETUS",
    { name := "Cetus", symbol := "CETUS", sdkName := "cetus" }),
   ("7016aae72cfc67f2fadf55769c0a7dd54291a583b63051a5ed71081cce836ac6::sca::SCA",
    { name := "Scallop", symbol := "SCA", sdkName := "sca" }),
   ("375f70cf2ae4c00bf37117d0c85a2c71545e6ee05c4a5c7d282cd66a4504b068::usdt::USDT",
    { name := "Native USDT", symbol := "USDT", sdkName := "usdt" })]

/-- extractCoinInfo from src/liquidator.ts: table lookup first, then
structural fallback on the double-colon segments of the type path. -/
def extractCoinInfo (coinTypeFull : String) : CoinIdentity :=
  match KNOWN_COIN_TYPES.lookup coinTypeFull with
  | some known => { name := known.name, symbol := known.symbol, sdkName := known.sdkName }
  | none =>
    let parts := jsSplitOnDoubleColon coinTypeFull
    if h : parts.length ≥ 3 then
      let moduleName := parts[1]
      let structName := parts[2]
      if jsToLower moduleName == "coin" then
        { name := "Unknown (" ++ structName ++ ")", symbol := structName,
          sdkName := jsToLower structName }
      else
        { name := structName, symbol := structName, sdkName := jsToLower moduleName }
    else
      { name := coinTypeFull, symbol := coinTypeFull, sdkName := coinTypeFull }

/-- DebtInfo from src/types.ts. -/
structure DebtInfo where
  coinType : String
  coinName : String
  coinSymbol : String
  coinDisplayName : String
  amount : ℚ
  amountCoin : ℚ
  valueUsd : ℚ
deriving Repr, DecidableEq

/-- CollateralInfo from src/types.ts. -/
structure CollateralInfo where
  coinType : String
  coinName : String
  coinSymbol : String
  coinDisplayName : String
  amount : ℚ
  amountCoin : ℚ
  valueUsd : ℚ
deriving Repr, DecidableEq

/-- ObligationInfo from src/types.ts. -/
structure ObligationInfo where
  obligationId : String
  debts : List DebtInfo
  collaterals : List CollateralInfo
  riskLevel : ℚ
  totalBorrowedValueWithWeight : ℚ
  totalRequiredCollateralValue : ℚ
  isLiquidatable : Bool
deriving Repr, DecidableEq

/-- LiquidationResult from src/types.ts; fields the code leaves unset are none. -/
structure LiquidationResult where
  success : Bool
  txDigest : Option String := none
  repaidAmount : Option String := none
  collateralReceived : Option String := none
  error : Option String := none
deriving Repr, DecidableEq

/-- One debt value of the structured-SDK obligation account response. -/
structure SDKDebt where
  coinType : String
  coinName : String
  borrowedAmount : ℚ
  borrowedCoin : ℚ
  borrowedValue : ℚ
deriving Repr, DecidableEq

/-- One collateral value of the structured-SDK obligation account response. -/
structure SDKCollateral where
  coinType : String
  coinName : String
  depositedAmount : ℚ
  depositedCoin : ℚ
  depositedValue : ℚ
deriving Repr, DecidableEq

/-- The structured-SDK obligation account: the debts and collaterals maps are
keyed records whose values may be null, and the maps themselves may be absent. -/
structure SDKAccount where
  obligationId : String
  debts : Option (List (String × Option SDKDebt))
  collaterals : Option (List (String × Option SDKCollateral))
  totalRiskLevel : ℚ
  totalBorrowedValueWithWeight : ℚ
  totalRequiredCollateralValue : ℚ
deriving Repr, DecidableEq

/-- parseObligationFromSDK from src/liquidator.ts: normalize the maps into
ordered lists, keep the source risk level, and derive the liquidatable flag
as riskLevel at least 1. -/
def parseObligationFromSDK (acc : SDKAccount) : ObligationInfo :=
  let debts : List DebtInfo :=
    match acc.debts with
    | none => []
    | some entries =>
      entries.filterMap (fun e =>
        e.2.map (fun debt =>
          let symbol := jsToUpper debt.coinName
          { coinType := debt.coinType, coinName := debt.coinName,
            coinSymbol := symbol, coinDisplayName := symbol,
            amount := debt.borrowedAmount, amountCoin := debt.borrowedCoin,
            valueUsd := debt.borrowedValue }))
  let collaterals : List CollateralInfo :=
    match acc.collaterals with
    | none => []
    | some entries =>
      entries.filterMap (fun e =>
        e.2.map (fun collateral =>
          let symbol := jsToUpper collateral.coinName
          { coinType := collateral.coinType, coinName := collateral.coinName,
            coinSymbol := symbol, coinDisplayName := symbol,
            amount := collateral.depositedAmount, amountCoin := collateral.depositedCoin,
            valueUsd := collateral.depositedValue }))
  { obligationId := acc.obligationId,
    debts := debts,
    collaterals := collaterals,
    riskLevel := acc.totalRiskLevel,
    totalBorrowedValueWithWeight := acc.totalBorrowedValueWithWeight,
    totalRequiredCollateralValue := acc.totalRequiredCollateralValue,
    isLiquidatable := decide (acc.totalRiskLevel ≥ 1) }

/-- A dynamic-field child object as fetched by getObject in the chain
fallback path: either its content or fields key is absent (the source then
skips the child), or its inner value shape is broken (the source then throws
a TypeError while reading it), or it is a well-formed name/amount entry. -/
inductive ChildObj where
  | missing
  | malformed
  | entry (childName : String) (amount : ℚ)
deriving Repr, DecidableEq

/-- The decodable part of the raw obligation object: how many keys each of
the two tables declares. -/
structure RawObligation where
  debtKeyCount : Nat
  collateralKeyCount : Nat
deriving Repr, DecidableEq

/-- The chain environment: the obligation object (none when the object is
absent or not a move object) and the child objects each per-table
getDynamicFields call would return. -/
structure ChainEnv where
  obligation : Option RawObligation
  debtChildren : List ChildObj
  collateralChildren : List ChildObj
deriving Repr, DecidableEq

/-- RPC calls the chain fallback parser can issue. -/
inductive RpcCall where
  | getObligation
  | getDebtFields
  | getDebtChild (i : Nat)
  | getCollateralFields
  | getCollateralChild (i : Nat)
deriving Repr, DecidableEq

/-- Does the call target the debt table (its field list or a child of it). -/
def isDebtTableCall : RpcCall → Bool
  | RpcCall.getDebtFields => true
  | RpcCall.getDebtChild _ => true
  | _ => false

/-- Does the call target the collateral table. -/
def isCollateralTableCall : RpcCall → Bool
  | RpcCall.getCollateralFields => true
  | RpcCall.getCollateralChild _ => true
  | _ => false

/-- The per-child loop of the chain fallback parser: fetch every child
(one getObject call each), skip a child without decodable fields, throw on a
child whose inner value shape is broken, and decode well-formed children. -/
def parseChildList {α : Type} (tag : Nat → RpcCall) (mk : String → ℚ → α) :
    Nat → List ChildObj → List RpcCall × Except String (List α)
  | _, [] => ([], Except.ok [])
  | start, ChildObj.missing :: rest =>
    let r := parseChildList tag mk (start + 1) rest
    (tag start :: r.1, r.2)
  | start, ChildObj.malformed :: _ =>
    ([tag start], Except.error "TypeError: Cannot read properties of undefined")
  | start, ChildObj.entry childName amount :: rest =>
    let r := parseChildList tag mk (start + 1) rest
    (tag start :: r.1, r.2.map (fun tail => mk childName amount :: tail))

/-- Decoding of one debt child in queryObligationFromChain: registry lookup,
decimal lookup with fallback 6, and unit conversion. -/
def mkDebtInfo (coinTypeFull : String) (rawAmount : ℚ) : DebtInfo :=
  let coinInfo := extractCoinInfo coinTypeFull
  let decimals := (COIN_DECIMALS.lookup (jsToLower coinInfo.sdkName)).getD
    ((COIN_DECIMALS.lookup (jsToLower coinInfo.symbol)).getD 6)
  { coinType := "0x" ++ coinTypeFull, coinName := coinInfo.sdkName,
    coinSymbol := coinInfo.symbol, coinDisplayName := coinInfo.name,
    amount := rawAmount, amountCoin := rawAmount / (10 : ℚ) ^ decimals,
    valueUsd := 0 }

/-- Decoding of one collateral child in queryObligationFromChain: registry
lookup, decimal lookup with fallback 9, and unit conversion. -/
def mkCollateralInfo (coinTypeFull : String) (rawAmount : ℚ) : CollateralInfo :=
  let coinInfo := extractCoinInfo coinTypeFull
  let decimals := (COIN_DECIMALS.lookup (jsToLower coinInfo.sdkName)).getD
    ((COIN_DECIMALS.lookup (jsToLower coinInfo.symbol)).getD 9)
  { coinType := "0x" ++ coinTypeFull, coinName := coinInfo.sdkName,
    coinSymbol := coinInfo.symbol, coinDisplayName := coinInfo.name,
    amount := rawAmount, amountCoin := rawAmount / (10 : ℚ) ^ decimals,
    valueUsd := 0 }

/-- The debt-table block of queryObligationFromChain: when the table declares
no keys the child-field fetch is skipped entirely. -/
def parseDebtTable (raw : RawObligation) (env : ChainEnv) :
    List RpcCall × Except String (List DebtInfo) :=
  if raw.debtKeyCount > 0 then
    let r := parseChildList RpcCall.getDebtChild mkDebtInfo 0 env.debtChildren
    (RpcCall.getDebtFields :: r.1, r.2)
  else ([], Except.ok [])

/-- The collateral-table block of queryObligationFromChain. -/
def parseCollateralTable (raw : RawObligation) (env : ChainEnv) :
    List RpcCall × Except String (List CollateralInfo) :=
  if raw.collateralKeyCount > 0 then
    let r := parseChildList RpcCall.getCollateralChild mkCollateralInfo 0 env.collateralChildren
    (RpcCall.getCollateralFields :: r.1, r.2)
  else ([], Except.ok [])

/-- The final record construction of queryObligationFromChain: risk level 999
for debt without collateral, 1.0 for debt with collateral, 0 otherwise, and
the liquidatable flag requiring debt, collateral and risk at least 1. -/
def classifyFromChain (obligationId : String) (debts : List DebtInfo)
    (collaterals : List CollateralInfo) : ObligationInfo :=
  let hasDebt := decide (debts.length > 0)
  let hasCollateral := decide (collaterals.length > 0)
  let riskLevel : ℚ := if hasDebt && !hasCollateral then 999 else if hasDebt then 1 else 0
  { obligationId := obligationId,
    debts := debts,
    collaterals := collaterals,
    riskLevel := riskLevel,
    totalBorrowedValueWithWeight := 0,
    totalRequiredCollateralValue := 0,
    isLiquidatable := hasDebt && hasCollateral && decide (riskLevel ≥ 1) }

/-- queryObligationFromChain from src/liquidator.ts, over the chain
environment; also returns the RPC calls issued, in order. -/
def queryObligationFromChain (obligationId : String) (env : ChainEnv) :
    List RpcCall × Except String ObligationInfo :=
  match env.obligation with
  | none => ([RpcCall.getObligation], Except.error ("Obligation not found: " ++ obligationId))
  | some raw =>
    let dres := parseDebtTable raw env
    match dres.2 with
    | Except.error e => (RpcCall.getObligation :: dres.1, Except.error e)
    | Except.ok debts =>
      let cres := parseCollateralTable raw env
      match cres.2 with
      | Except.error e => (RpcCall.getObligation :: (dres.1 ++ cres.1), Except.error e)
      | Except.ok collaterals =>
        (RpcCall.getObligation :: (dres.1 ++ cres.1),
         Except.ok (classifyFromChain obligationId debts collaterals))

/-- queryObligation from src/liquidator.ts: use the structured SDK response
when present, otherwise fall back to the chain parser. The first component
counts how many times the chain parser was invoked. -/
def queryObligation (sdkAccount : Option SDKAccount) (env : ChainEnv)
    (obligationId : String) : Nat × List RpcCall × Except String ObligationInfo :=
  match sdkAccount with
  | some acc => (0, [], Except.ok (parseObligationFromSDK acc))
  | none =>
    let r := queryObligationFromChain obligationId env
    (1, r.1, r.2)

/-- Outcome of running the transaction-builder pipeline inside the try
block: either a digest from signAndSendTxBlock, or a raised error message
from any step of the pipeline. -/
inductive BuilderOutcome where
  | ok (digest : String)
  | err (msg : String)
deriving Repr, DecidableEq

/-- Decimal rendering with six fraction digits; models the
Number.prototype.toFixed call used in the insufficient-balance messages. -/
def ratToFixed6 (q : ℚ) : String :=
  let scaled : ℤ := ⌊q * 1000000 + 1 / 2⌋
  let sign := if scaled < 0 then "-" else ""
  let n := scaled.natAbs
  let fracDigits := toString (n % 1000000)
  sign ++ toString (n / 1000000) ++ "." ++
    String.mk (List.replicate (6 - fracDigits.length) '0' ++ fracDigits.data)

/-- The locked-obligation message of liquidate (error 770). -/
def obligationLockedLiquidateMsg : String :=
  "Obligation is locked (Error 770). The obligation owner has staked this in the borrow incentive program. It cannot be liquidated until the owner unstakes it."

/-- The zero-amount message of liquidate (error 1537). -/
def zeroAmountLiquidateMsg : String :=
  "Liquidation amount must be greater than zero (Error 1537). The debt may be too small to liquidate."

/-- The insufficient-balance message shared by liquidate and repayBadDebt. -/
def insufficientBalanceMsg (debtCoinName : String) (humanAmount : ℚ) : String :=
  "Insufficient " ++ jsToUpper debtCoinName ++ " balance. Required: " ++
    ratToFixed6 humanAmount ++ " " ++ jsToUpper debtCoinName ++
    ". Please ensure you have enough " ++ jsToUpper debtCoinName ++ " in your wallet."

/-- The unsupported-coin-pair message of liquidate. -/
def unsupportedPairLiquidateMsg (debtCoinName collateralCoinName : String) : String :=
  "Coin \"" ++ debtCoinName ++ "\" or \"" ++ collateralCoinName ++
    "\" is not supported by Scallop SDK. Common supported coins: usdc, wusdc, wusdt, sui, weth, cetus, sca."

/-- The locked-obligation message of repayBadDebt (error 770). -/
def obligationLockedRepayMsg : String :=
  "Obligation is locked (Error 770). The obligation owner has staked this in the borrow incentive program. It cannot be repaid until the owner unstakes it."

/-- The unsupported-coin message of repayBadDebt. -/
def unsupportedCoinRepayMsg (debtCoinName : String) : String :=
  "Coin \"" ++ debtCoinName ++ "\" is not supported by Scallop SDK. This debt may be in a coin that Scallop no longer supports or was never a valid lending pool. Common supported coins: usdc, wusdc, wusdt, sui, weth, cetus, sca."

/-- liquidate from src/liquidator.ts: on builder success, echo the requested
amount; on a raised builder error, classify the message by substring (770,
1537, insufficient balance, unsupported coin) into a structured failure. -/
def liquidate (builderOutcome : BuilderOutcome) (obligationId debtCoinName
    collateralCoinName : String) (repayAmount : ℤ) : LiquidationResult :=
  match builderOutcome with
  | BuilderOutcome.ok digest =>
    { success := true, txDigest := some digest,
      repaidAmount := some (toString repayAmount) }
  | BuilderOutcome.err errorMsg =>
    if strContains errorMsg "770" then
      { success := false, error := some obligationLockedLiquidateMsg }
    else if strContains errorMsg "1537" then
      { success := false, error := some zeroAmountLiquidateMsg }
    else if strContains errorMsg "No valid coins" || strContains errorMsg "Insufficient" then
      let decimals := (COIN_DECIMALS.lookup (jsToLower debtCoinName)).getD 9
      { success := false,
        error := some (insufficientBalanceMsg debtCoinName
          ((repayAmount : ℚ) / (10 : ℚ) ^ decimals)) }
    else if strContains errorMsg "Cannot convert undefined" ||
        strContains errorMsg "Cannot convert null" then
      { success := false,
        error := some (unsupportedPairLiquidateMsg debtCoinName collateralCoinName) }
    else
      { success := false, error := some errorMsg }

/-- repayBadDebt from src/liquidator.ts: on builder success, echo the
requested amount; on a raised builder error, classify the message
(insufficient balance first, then 770, then unsupported coin). -/
def repayBadDebt (builderOutcome : BuilderOutcome) (obligationId
    debtCoinName : String) (repayAmount : ℤ) : LiquidationResult :=
  match builderOutcome with
  | BuilderOutcome.ok digest =>
    { success := true, txDigest := some digest,
      repaidAmount := some (toString repayAmount) }
  | BuilderOutcome.err errorMsg =>
    if strContains errorMsg "No valid coins" || strContains errorMsg "Insufficient" then
      let decimals := (COIN_DECIMALS.lookup (jsToLower debtCoinName)).getD 9
      { success := false,
        error := some (insufficientBalanceMsg debtCoinName
          ((repayAmount : ℚ) / (10 : ℚ) ^ decimals)) }
    else if strContains errorMsg "770" then
      { success := false, error := some obligationLockedRepayMsg }
    else if strContains errorMsg "Cannot convert undefined" ||
        strContains errorMsg "Cannot convert null" then
      { success := false, error := some (unsupportedCoinRepayMsg debtCoinName) }
    else
      { success := false, error := some errorMsg }

/-- The result record of estimateLiquidationProfit. -/
structure ProfitEstimate where
  profitable : Bool
  estimatedProfitUsd : ℚ
deriving Repr, DecidableEq

/-- estimateLiquidationProfit from src/liquidator.ts: find matching entries
case-insensitively, cap at half the debt USD value and at the collateral USD
value, apply the bonus rate, and compare against the 0.10 USD floor. -/
def estimateLiquidationProfit (obligationInfo : ObligationInfo)
    (debtCoinName collateralCoinName : String)
    (liquidationBonus : ℚ := 1 / 20) : ProfitEstimate :=
  let debt := obligationInfo.debts.find?
    (fun d => jsToLower d.coinName == jsToLower debtCoinName)
  let collateral := obligationInfo.collaterals.find?
    (fun c => jsToLower c.coinName == jsToLower collateralCoinName)
  match debt, collateral with
  | some d, some c =>
    let maxLiquidatableUsd := min (d.valueUsd * (1 / 2)) c.valueUsd
    let estimatedProfitUsd := maxLiquidatableUsd * liquidationBonus
    { profitable := decide (estimatedProfitUsd > 1 / 10),
      estimatedProfitUsd := estimatedProfitUsd }
  | _, _ => { profitable := false, estimatedProfitUsd := 0 }

/-- The bad-debt check of the CLI main (src/index.ts): debt present and no
collateral. -/
def mainIsBadDebt (info : ObligationInfo) : Bool :=
  decide (info.debts.length > 0) && (info.collaterals.length == 0)

/-- The repay amount the CLI main computes for ordinary liquidation: the
floor of half the raw amount of the first debt entry, as a big integer. -/
def mainOrdinaryRepayAmountRaw (info : ObligationInfo) : Option ℤ :=
  info.debts.head?.map (fun primaryDebt => ⌊primaryDebt.amount * (1 / 2)⌋)

/-- The repay amount the CLI main computes for bad-debt repayment: the floor
of the full (100 percent) raw amount of the first debt entry. -/
def mainBadDebtRepayAmountRaw (info : ObligationInfo) : Option ℤ :=
  info.debts.head?.map (fun primaryDebt => ⌊primaryDebt.amount * 1⌋)

/-! Fixture inputs used by witnesses and counterexamples. -/

/-- A structured-SDK account with one debt, an empty collateral map and a
risk level of 2: a bad-debt position as the SDK could report it. -/
def sdkBadDebtAccount : SDKAccount :=
  { obligationId := "0x1",
    debts := some [("usdc",
      some { coinType := "0x2::usdc::USDC", coinName := "usdc",
             borrowedAmount := 1000000, borrowedCoin := 1, borrowedValue := 1 })],
    collaterals := some [],
    totalRiskLevel := 2,
    totalBorrowedValueWithWeight := 2,
    totalRequiredCollateralValue := 1 }

/-- A trivial chain environment (obligation absent). -/
def emptyChainEnv : ChainEnv :=
  { obligation := none, debtChildren := [], collateralChildren := [] }

/-- Chain environment with one well-formed debt child and no collateral keys. -/
def envBadDebtW : ChainEnv :=
  { obligation := some { debtKeyCount := 1, collateralKeyCount := 0 },
    debtChildren := [ChildObj.entry "aa::mod::TOK" 5],
    collateralChildren := [] }

/-- The record the chain parser produces on envBadDebtW. -/
def infoBadDebtW : ObligationInfo :=
  { obligationId := "0xw1", debts := [mkDebtInfo "aa::mod::TOK" 5],
    collaterals := [], riskLevel := 999,
    totalBorrowedValueWithWeight := 0, totalRequiredCollateralValue := 0,
    isLiquidatable := false }

/-- Chain environment with one debt child and one collateral child. -/
def envBothW : ChainEnv :=
  { obligation := some { debtKeyCount := 1, collateralKeyCount := 1 },
    debtChildren := [ChildObj.entry "aa::mod::TOK" 5],
    collateralChildren := [ChildObj.entry "bb::oth::TOKB" 7] }

/-- The record the chain parser produces on envBothW. -/
def infoBothW : ObligationInfo :=
  { obligationId := "0xw2", debts := [mkDebtInfo "aa::mod::TOK" 5],
    collaterals := [mkCollateralInfo "bb::oth::TOKB" 7], riskLevel := 1,
    totalBorrowedValueWithWeight := 0, totalRequiredCollateralValue := 0,
    isLiquidatable := true }

/-- Chain environment whose debt table declares zero keys while the
collateral table has one key and one child. -/
def envZeroKeysW : ChainEnv :=
  { obligation := some { debtKeyCount := 0, collateralKeyCount := 1 },
    debtChildren := [],
    collateralChildren := [ChildObj.entry "bb::oth::TOKB" 7] }

/-- The record the chain parser produces on envZeroKeysW. -/
def infoZeroKeysW : ObligationInfo :=
  { obligationId := "0xw4", debts := [],
    collaterals := [mkCollateralInfo "bb::oth::TOKB" 7], riskLevel := 0,
    totalBorrowedValueWithWeight := 0, totalRequiredCollateralValue := 0,
    isLiquidatable := false }

/-- Chain environment with one debt key whose fetched child object has no
decodable content. -/
def envUndecodableChild : ChainEnv :=
  { obligation := some { debtKeyCount := 1, collateralKeyCount := 0 },
    debtChildren := [ChildObj.missing],
    collateralChildren := [] }

/-- A debt entry with integral raw amount 6. -/
def debtSixRaw : DebtInfo :=
  { coinType := "0x2::sui::SUI", coinName := "sui", coinSymbol := "SUI",
    coinDisplayName := "Sui", amount := 6, amountCoin := 6, valueUsd := 6 }

/-- A record whose only debt entry is debtSixRaw. -/
def infoDebtSixRaw : ObligationInfo :=
  { obligationId := "0xw3", debts := [debtSixRaw], collaterals := [],
    riskLevel := 999, totalBorrowedValueWithWeight := 0,
    totalRequiredCollateralValue := 0, isLiquidatable := false }

/-- A debt entry worth 20 USD named usdc. -/
def debtUsdTwenty : DebtInfo :=
  { coinType := "0x2::usdc::USDC", coinName := "usdc", coinSymbol := "USDC",
    coinDisplayName := "USD Coin", amount := 20000000, amountCoin := 20,
    valueUsd := 20 }

/-- A collateral entry worth 15 USD named sui. -/
def collateralUsdFifteen : CollateralInfo :=
  { coinType := "0x2::sui::SUI", coinName := "sui", coinSymbol := "SUI",
    coinDisplayName := "Sui", amount := 15000000000, amountCoin := 15,
    valueUsd := 15 }

/-- A record holding debtUsdTwenty and collateralUsdFifteen. -/
def infoProfitW : ObligationInfo :=
  { obligationId := "0xw5", debts := [debtUsdTwenty],
    collaterals := [collateralUsdFifteen], riskLevel := 2,
    totalBorrowedValueWithWeight := 0, totalRequiredCollateralValue := 0,
    isLiquidatable := true }

/-! Helper lemmas. -/

/-- Char.ofNat round-trips through toNat on valid code points. -/
theorem char_ofNat_toNat (n : Nat) (h : n.isValidChar) : (Char.ofNat n).toNat = n := by
  simp [Char.ofNat, h, Char.ofNatAux, Char.toNat, UInt32.toNat, BitVec.toNat_ofNatLt]

/-- Char.toLower is idempotent. -/
theorem char_toLower_idem (c : Char) : c.toLower.toLower = c.toLower := by
  simp only [Char.toLower]
  by_cases h : c.toNat ≥ 65 ∧ c.toNat ≤ 90
  · rw [if_pos h]
    have hv : (c.toNat + 32).isValidChar := by
      left; omega
    rw [char_ofNat_toNat _ hv, if_neg (by omega)]
  · rw [if_neg h, if_neg h]

/-- jsToLower is idempotent: lowering an already lowered string changes nothing. -/
theorem jsToLower_idem (s : String) : jsToLower (jsToLower s) = jsToLower s := by
  show String.mk ((s.data.map Char.toLower).map Char.toLower)
    = String.mk (s.data.map Char.toLower)
  rw [List.map_map]
  exact congrArg String.mk (List.map_congr_left (fun c _ => char_toLower_idem c))

/-- Every call recorded by the child loop carries the loop tag. -/
theorem parseChildList_calls_tag {α : Type} (tag : Nat → RpcCall) (mk : String → ℚ → α) :
    ∀ (l : List ChildObj) (start : Nat) (c : RpcCall),
      c ∈ (parseChildList tag mk start l).1 → ∃ i, c = tag i := by
  intro l
  induction l with
  | nil => intro start c hc; simp [parseChildList] at hc
  | cons hd tl ih =>
    intro start c hc
    cases hd with
    | missing =>
      simp only [parseChildList, List.mem_cons] at hc
      rcases hc with h | h
      · exact ⟨start, h⟩
      · exact ih _ _ h
    | malformed =>
      simp only [parseChildList, List.mem_cons, List.not_mem_nil, or_false] at hc
      exact ⟨start, hc⟩
    | entry childName amount =>
      simp only [parseChildList, List.mem_cons] at hc
      rcases hc with h | h
      · exact ⟨start, h⟩
      · exact ih _ _ h

/-- Every call issued by the debt-table block targets the debt table. -/
theorem parseDebtTable_calls (raw : RawObligation) (env : ChainEnv) :
    ∀ c ∈ (parseDebtTable raw env).1, isDebtTableCall c = true := by
  intro c hc
  unfold parseDebtTable at hc
  split at hc
  · simp only [List.mem_cons] at hc
    rcases hc with h | h
    · rw [h]; rfl
    · obtain ⟨i, hi⟩ := parseChildList_calls_tag _ _ _ _ _ h
      rw [hi]; rfl
  · simp at hc

/-- Every call issued by the collateral-table block targets the collateral table. -/
theorem parseCollateralTable_calls (raw : RawObligation) (env : ChainEnv) :
    ∀ c ∈ (parseCollateralTable raw env).1, isCollateralTableCall c = true := by
  intro c hc
  unfold parseCollateralTable at hc
  split at hc
  · simp only [List.mem_cons] at hc
    rcases hc with h | h
    · rw [h]; rfl
    · obtain ⟨i, hi⟩ := parseChildList_calls_tag _ _ _ _ _ h
      rw [hi]; rfl
  · simp at hc

/-- No call targets both tables. -/
theorem not_debt_and_collateral_call (c : RpcCall) :
    isCollateralTableCall c = true → isDebtTableCall c = false := by
  cases c <;> simp [isDebtTableCall, isCollateralTableCall]

/-- No call targets both tables, other direction. -/
theorem not_collateral_and_debt_call (c : RpcCall) :
    isDebtTableCall c = true → isCollateralTableCall c = false := by
  cases c <;> simp [isDebtTableCall, isCollateralTableCall]

/-- Any record the chain parser returns successfully was built by the final
classification step from some pair of decoded lists. -/
theorem queryObligationFromChain_ok_shape {obligationId : String} {env : ChainEnv}
    {log : List RpcCall} {info : ObligationInfo}
    (h : queryObligationFromChain obligationId env = (log, Except.ok info)) :
    ∃ d c, info = classifyFromChain obligationId d c := by
  cases hobl : env.obligation with
  | none =>
    simp only [queryObligationFromChain, hobl] at h
    simp at h
  | some raw =>
    simp only [queryObligationFromChain, hobl] at h
    split at h
    · simp at h
    · split at h
      · simp at h
      · have h2 := congrArg Prod.snd h
        simp only [Except.ok.injEq] at h2
        exact ⟨_, _, h2.symm⟩

/-- Risk level and liquidatable flag of the chain-path classification step,
by cases on emptiness of the decoded lists. -/
theorem classifyFromChain_spec (obligationId : String) (d : List DebtInfo)
    (c : List CollateralInfo) :
    (d ≠ [] → c = [] → (classifyFromChain obligationId d c).riskLevel = 999 ∧
      (classifyFromChain obligationId d c).isLiquidatable = false) ∧
    (d ≠ [] → c ≠ [] → (classifyFromChain obligationId d c).riskLevel = 1 ∧
      (classifyFromChain obligationId d c).isLiquidatable = true) ∧
    (d = [] → (classifyFromChain obligationId d c).riskLevel = 0 ∧
      (classifyFromChain obligationId d c).isLiquidatable = false) := by
  cases d with
  | nil => cases c <;> simp [classifyFromChain]
  | cons x xs =>
    cases c with
    | nil => simp [classifyFromChain]
    | cons y ys =>
      refine ⟨by simp, fun _ _ => ?_, by simp⟩
      constructor
      · simp [classifyFromChain]
      · simp [classifyFromChain]

/-! Claim theorems. -/

/-- C1 counterexample: a record produced by queryObligation through the SDK
path can be bad debt (debt present, no collateral) and still carry
isLiquidatable = true, because the SDK path derives the flag from the risk
level alone. -/
theorem queryObligation_sdk_badDebt_marked_liquidatable :
    (queryObligation (some sdkBadDebtAccount) emptyChainEnv "0x1").2.2
      = Except.ok (parseObligationFromSDK sdkBadDebtAccount) ∧
    mainIsBadDebt (parseObligationFromSDK sdkBadDebtAccount) = true ∧
    (parseObligationFromSDK sdkBadDebtAccount).isLiquidatable = true := by
  refine ⟨rfl, rfl, rfl⟩

/-- C1 amended: only the chain-fallback path guarantees the exclusion; a
record the chain parser returns that is bad debt (debt present, no
collateral) is never flagged liquidatable. -/
theorem badDebt_not_liquidatable_chain_only (obligationId : String) (env : ChainEnv)
    (log : List RpcCall) (info : ObligationInfo)
    (h : queryObligationFromChain obligationId env = (log, Except.ok info))
    (hbad : mainIsBadDebt info = true) :
    info.isLiquidatable = false := by
  obtain ⟨d, c, hic⟩ := queryObligationFromChain_ok_shape h
  subst hic
  simp only [mainIsBadDebt, classifyFromChain, Bool.and_eq_true, decide_eq_true_eq,
    beq_iff_eq] at hbad
  obtain ⟨hd, hc⟩ := hbad
  exact ((classifyFromChain_spec obligationId d c).1
    (List.length_pos.mp hd) (List.length_eq_zero.mp hc)).2

/-- C1 amended witness at a concrete chain environment. -/
theorem badDebt_not_liquidatable_chain_only_witness :
    infoBadDebtW.isLiquidatable = false :=
  badDebt_not_liquidatable_chain_only "0xw1" envBadDebtW
    [RpcCall.getObligation, RpcCall.getDebtFields, RpcCall.getDebtChild 0]
    infoBadDebtW rfl rfl

/-- C2: every record the chain-fallback parser returns is classified by the
emptiness of its lists: debt without collateral gives the 999 sentinel and
not liquidatable; debt with collateral gives exactly 1.0 and liquidatable;
no debt gives 0 and not liquidatable. -/
theorem queryObligationFromChain_classification (obligationId : String)
    (env : ChainEnv) (log : List RpcCall) (info : ObligationInfo)
    (h : queryObligationFromChain obligationId env = (log, Except.ok info)) :
    (info.debts ≠ [] → info.collaterals = [] →
      info.riskLevel = 999 ∧ info.isLiquidatable = false) ∧
    (info.debts ≠ [] → info.collaterals ≠ [] →
      info.riskLevel = 1 ∧ info.isLiquidatable = true) ∧
    (info.debts = [] → info.riskLevel = 0 ∧ info.isLiquidatable = false) := by
  obtain ⟨d, c, hic⟩ := queryObligationFromChain_ok_shape h
  subst hic
  exact classifyFromChain_spec obligationId d c

/-- C2 witness at a concrete chain environment with debt and collateral. -/
theorem queryObligationFromChain_classification_witness :
    infoBothW.riskLevel = 1 ∧ infoBothW.isLiquidatable = true :=
  (queryObligationFromChain_classification "0xw2" envBothW
    [RpcCall.getObligation, RpcCall.getDebtFields, RpcCall.getDebtChild 0,
     RpcCall.getCollateralFields, RpcCall.getCollateralChild 0]
    infoBothW rfl).2.1 (by simp [infoBothW]) (by simp [infoBothW])

/-- C3: on a record whose first debt entry has an integral raw amount, the
ordinary-liquidation repay amount the CLI main sends is exactly the floor of
half that raw amount, and the bad-debt repay amount is exactly the full raw
amount (100 percent, no cap). -/
theorem main_repay_amounts (info : ObligationInfo) (d : DebtInfo)
    (rest : List DebtInfo) (hd : info.debts = d :: rest)
    (n : ℤ) (hn : d.amount = (n : ℚ)) :
    mainOrdinaryRepayAmountRaw info = some ⌊d.amount * (1 / 2)⌋ ∧
    mainBadDebtRepayAmountRaw info = some n := by
  constructor
  · simp [mainOrdinaryRepayAmountRaw, hd]
  · simp [mainBadDebtRepayAmountRaw, hd, hn, Int.floor_intCast]

/-- C3 witness on a record with raw debt amount 6. -/
theorem main_repay_amounts_witness :
    mainOrdinaryRepayAmountRaw infoDebtSixRaw = some ⌊debtSixRaw.amount * (1 / 2)⌋ ∧
    mainBadDebtRepayAmountRaw infoDebtSixRaw = some 6 :=
  main_repay_amounts infoDebtSixRaw debtSixRaw [] rfl 6 rfl

/-- C4: queryObligation returns the normalized SDK record (with the source
risk level) when the structured source answers, and otherwise invokes the
chain parser exactly once and returns its result unchanged, without
throwing merely because the structured source was empty. -/
theorem queryObligation_two_tier (acc : SDKAccount) (env : ChainEnv)
    (obligationId : String) :
    queryObligation (some acc) env obligationId
      = (0, [], Except.ok (parseObligationFromSDK acc)) ∧
    (parseObligationFromSDK acc).riskLevel = acc.totalRiskLevel ∧
    queryObligation none env obligationId
      = (1, (queryObligationFromChain obligationId env).1,
            (queryObligationFromChain obligationId env).2) :=
  ⟨rfl, rfl, rfl⟩

/-- C5: when a debt entry and a collateral entry match the requested names
case-insensitively, the profit estimate is min of half the debt USD value
and the collateral USD value, times the bonus rate, and the profitable flag
is exactly the comparison of that estimate against the 0.10 USD floor; when
either entry is missing the estimate is the zero record. -/
theorem estimateLiquidationProfit_spec (info : ObligationInfo)
    (debtCoinName collateralCoinName : String) (bonus : ℚ) :
    (∀ d c,
      info.debts.find? (fun x => jsToLower x.coinName == jsToLower debtCoinName) = some d →
      info.collaterals.find?
        (fun x => jsToLower x.coinName == jsToLower collateralCoinName) = some c →
      estimateLiquidationProfit info debtCoinName collateralCoinName bonus =
        { profitable := decide (min (d.valueUsd * (1 / 2)) c.valueUsd * bonus > 1 / 10),
          estimatedProfitUsd := min (d.valueUsd * (1 / 2)) c.valueUsd * bonus }) ∧
    ((info.debts.find? (fun x => jsToLower x.coinName == jsToLower debtCoinName) = none ∨
      info.collaterals.find?
        (fun x => jsToLower x.coinName == jsToLower collateralCoinName) = none) →
      estimateLiquidationProfit info debtCoinName collateralCoinName bonus =
        { profitable := false, estimatedProfitUsd := 0 }) := by
  constructor
  · intro d c h1 h2
    simp [estimateLiquidationProfit, h1, h2]
  · intro hcase
    rcases hcase with h1 | h2
    · simp [estimateLiquidationProfit, h1]
    · cases hfd : info.debts.find? (fun x => jsToLower x.coinName == jsToLower debtCoinName) with
      | none => simp [estimateLiquidationProfit, hfd]
      | some d => simp [estimateLiquidationProfit, hfd, h2]

/-- C5 witness on a concrete record queried with upper-case coin names. -/
theorem estimateLiquidationProfit_spec_witness :
    estimateLiquidationProfit infoProfitW "USDC" "SUI" (1 / 20) =
      { profitable := decide
          (min (debtUsdTwenty.valueUsd * (1 / 2)) collateralUsdFifteen.valueUsd
            * (1 / 20) > 1 / 10),
        estimatedProfitUsd :=
          min (debtUsdTwenty.valueUsd * (1 / 2)) collateralUsdFifteen.valueUsd
            * (1 / 20) } :=
  (estimateLiquidationProfit_spec infoProfitW "USDC" "SUI" (1 / 20)).1
    debtUsdTwenty collateralUsdFifteen rfl rfl

/-- C6: a raised builder error never escapes liquidate: the result is a
structured failure with an error message, and when the raised message
contains the 770 locked indicator the returned error is the locked-specific
message, not the raw builder message. -/
theorem liquidate_builder_error_structured (msg obligationId dName cName : String)
    (amt : ℤ) :
    (liquidate (BuilderOutcome.err msg) obligationId dName cName amt).success = false ∧
    ((liquidate (BuilderOutcome.err msg) obligationId dName cName amt).error).isSome
      = true ∧
    (strContains msg "770" = true →
      (liquidate (BuilderOutcome.err msg) obligationId dName cName amt).error
        = some obligationLockedLiquidateMsg ∧
      (msg ≠ obligationLockedLiquidateMsg →
        (liquidate (BuilderOutcome.err msg) obligationId dName cName amt).error
          ≠ some msg)) := by
  refine ⟨?_, ?_, ?_⟩
  · simp only [liquidate]
    repeat' (first | rfl | split)
  · simp only [liquidate]
    repeat' (first | rfl | split)
  · intro h770
    have hval : liquidate (BuilderOutcome.err msg) obligationId dName cName amt
        = { success := false, error := some obligationLockedLiquidateMsg } := by
      simp only [liquidate, h770, if_true]
    refine ⟨by rw [hval], ?_⟩
    intro hne
    rw [hval]
    intro hcontra
    simp only [Option.some.injEq] at hcontra
    exact hne hcontra.symm

/-- C6 witness with a concrete locked-error message. -/
theorem liquidate_builder_error_structured_witness :
    (liquidate (BuilderOutcome.err "MoveAbort 770 in module") "0x1" "usdc" "sui" 50).error
      = some obligationLockedLiquidateMsg :=
  ((liquidate_builder_error_structured "MoveAbort 770 in module" "0x1" "usdc" "sui"
    50).2.2 rfl).1

/-- C7: on a fetched debt child whose object carries no decodable content,
the chain parser does not abort; it silently drops the entry and returns a
successful record with an empty debts list. -/
theorem chain_parser_silently_drops_undecodable_child :
    queryObligationFromChain "0x1" envUndecodableChild =
      ([RpcCall.getObligation, RpcCall.getDebtFields, RpcCall.getDebtChild 0],
       Except.ok { obligationId := "0x1", debts := [], collaterals := [],
                   riskLevel := 0, totalBorrowedValueWithWeight := 0,
                   totalRequiredCollateralValue := 0, isLiquidatable := false }) := rfl

/-- C8 counterexample: an unmatched identifier without double-colon segments
is returned verbatim as the short name, so the short name is not lowercase
for the input ABC and is empty for the empty input. -/
theorem extractCoinInfo_fallback_violations :
    (extractCoinInfo "ABC").sdkName = "ABC" ∧
    jsToLower "ABC" ≠ "ABC" ∧
    (extractCoinInfo "").sdkName = "" := by
  refine ⟨rfl, ?_, rfl⟩
  decide

/-- C8 amended: exact matches return their table entry unchanged; an
unmatched identifier with at least three double-colon segments gets a
lowercased short name derived from its module (or struct) segment; an
unmatched identifier with fewer segments is returned verbatim in all three
fields, so those fields are only as lowercase and non-empty as the input. -/
theorem extractCoinInfo_spec (s : String) :
    (∀ e, KNOWN_COIN_TYPES.lookup s = some e → extractCoinInfo s = e) ∧
    (KNOWN_COIN_TYPES.lookup s = none →
      (∀ p m st rest, jsSplitOnDoubleColon s = p :: m :: st :: rest →
        (extractCoinInfo s).sdkName
          = (if jsToLower m == "coin" then jsToLower st else jsToLower m) ∧
        jsToLower (extractCoinInfo s).sdkName = (extractCoinInfo s).sdkName) ∧
      ((jsSplitOnDoubleColon s).length < 3 →
        extractCoinInfo s = { name := s, symbol := s, sdkName := s })) := by
  constructor
  · intro e he
    simp [extractCoinInfo, he]
  · intro hnone
    constructor
    · intro p m st rest hsplit
      have hlen : (jsSplitOnDoubleColon s).length ≥ 3 := by
        rw [hsplit]; simp only [List.length_cons]; omega
      have hval : extractCoinInfo s
          = (if jsToLower m == "coin" then
              { name := "Unknown (" ++ st ++ ")", symbol := st,
                sdkName := jsToLower st }
            else { name := st, symbol := st, sdkName := jsToLower m }) := by
        simp only [extractCoinInfo, hnone]
        rw [dif_pos hlen]
        simp only [hsplit, List.getElem_cons_succ, List.getElem_cons_zero]
      constructor
      · rw [hval]
        cases hcoin : (jsToLower m == "coin") <;> simp [hcoin]
      · rw [hval]
        cases hcoin : (jsToLower m == "coin") <;> simp [hcoin, jsToLower_idem]
    · intro hlt
      simp only [extractCoinInfo, hnone]
      rw [dif_neg (by omega)]

/-- C8 witness: a known identifier returns its table entry, and an unmatched
three-segment identifier returns the lowercased module segment. -/
theorem extractCoinInfo_spec_witness :
    extractCoinInfo
        "0000000000000000000000000000000000000000000000000000000000000002::sui::SUI"
      = { name := "Sui", symbol := "SUI", sdkName := "sui" } ∧
    (extractCoinInfo "abc::mymod::TOKEN").sdkName
      = (if jsToLower "mymod" == "coin" then jsToLower "TOKEN" else jsToLower "mymod") :=
  ⟨(extractCoinInfo_spec _).1 _ rfl,
   (((extractCoinInfo_spec "abc::mymod::TOKEN").2 rfl).1 "abc" "mymod" "TOKEN" [] rfl).1⟩

/-- C9: when a table declares zero keys, the chain parser issues no
field-list or child fetch for that table and the corresponding list in any
returned record is empty. -/
theorem chain_zero_keys_no_table_fetch (obligationId : String) (env : ChainEnv)
    (raw : RawObligation) (hobl : env.obligation = some raw) :
    (raw.debtKeyCount = 0 →
      (∀ call ∈ (queryObligationFromChain obligationId env).1,
        isDebtTableCall call = false) ∧
      (∀ log info, queryObligationFromChain obligationId env = (log, Except.ok info) →
        info.debts = [])) ∧
    (raw.collateralKeyCount = 0 →
      (∀ call ∈ (queryObligationFromChain obligationId env).1,
        isCollateralTableCall call = false) ∧
      (∀ log info, queryObligationFromChain obligationId env = (log, Except.ok info) →
        info.collaterals = [])) := by
  constructor
  · intro hkey
    have hdt : parseDebtTable raw env = ([], Except.ok []) := by
      simp [parseDebtTable, hkey]
    have hlog : (queryObligationFromChain obligationId env).1
        = RpcCall.getObligation :: ([] ++ (parseCollateralTable raw env).1) := by
      simp only [queryObligationFromChain, hobl, hdt]
      rcases hsurj : (parseCollateralTable raw env).2 with e | colls <;> rfl
    constructor
    · intro call hcall
      rw [hlog] at hcall
      simp only [List.nil_append, List.mem_cons] at hcall
      rcases hcall with h | h
      · rw [h]; rfl
      · exact not_debt_and_collateral_call call (parseCollateralTable_calls raw env call h)
    · intro log info heq
      simp only [queryObligationFromChain, hobl, hdt] at heq
      rcases hsurj : (parseCollateralTable raw env).2 with e | colls
      · rw [hsurj] at heq; simp at heq
      · rw [hsurj] at heq
        have h2 := congrArg Prod.snd heq
        simp only [Except.ok.injEq] at h2
        rw [← h2]
        rfl
  · intro hkey
    have hct : parseCollateralTable raw env = ([], Except.ok []) := by
      simp [parseCollateralTable, hkey]
    have hlog : (queryObligationFromChain obligationId env).1
        = RpcCall.getObligation :: (parseDebtTable raw env).1 := by
      simp only [queryObligationFromChain, hobl, hct]
      rcases hsurj : (parseDebtTable raw env).2 with e | debts <;> simp
    constructor
    · intro call hcall
      rw [hlog] at hcall
      simp only [List.mem_cons] at hcall
      rcases hcall with h | h
      · rw [h]; rfl
      · exact not_collateral_and_debt_call call (parseDebtTable_calls raw env call h)
    · intro log info heq
      simp only [queryObligationFromChain, hobl, hct] at heq
      rcases hsurj : (parseDebtTable raw env).2 with e | debts
      · rw [hsurj] at heq; simp at heq
      · rw [hsurj] at heq
        have h2 := congrArg Prod.snd heq
        simp only [Except.ok.injEq] at h2
        rw [← h2]
        rfl

/-- C9 witness at a concrete environment whose debt table has zero keys. -/
theorem chain_zero_keys_no_table_fetch_witness :
    infoZeroKeysW.debts = [] ∧ isDebtTableCall RpcCall.getCollateralFields = false :=
  ⟨((chain_zero_keys_no_table_fetch "0xw4" envZeroKeysW
      { debtKeyCount := 0, collateralKeyCount := 1 } rfl).1 rfl).2
      [RpcCall.getObligation, RpcCall.getCollateralFields, RpcCall.getCollateralChild 0]
      infoZeroKeysW rfl,
   ((chain_zero_keys_no_table_fetch "0xw4" envZeroKeysW
      { debtKeyCount := 0, collateralKeyCount := 1 } rfl).1 rfl).1
      RpcCall.getCollateralFields (by decide)⟩

/-- C10: on success both operations echo the requested amount as a decimal
string in repaidAmount, and neither operation ever populates
collateralReceived. -/
theorem liquidation_results_echo (outcome : BuilderOutcome)
    (obligationId dName cName : String) (amt : ℤ) (digest : String) :
    (liquidate outcome obligationId dName cName amt).collateralReceived = none ∧
    (repayBadDebt outcome obligationId dName amt).collateralReceived = none ∧
    (liquidate (BuilderOutcome.ok digest) obligationId dName cName amt).repaidAmount
      = some (toString amt) ∧
    (repayBadDebt (BuilderOutcome.ok digest) obligationId dName amt).repaidAmount
      = some (toString amt) := by
  refine ⟨?_, ?_, rfl, rfl⟩
  · cases outcome with
    | ok d2 => rfl
    | err msg =>
      simp only [liquidate]
      repeat' (first | rfl | split)
  · cases outcome with
    | ok d2 => rfl
    | err msg =>
      simp only [repayBadDebt]
      repeat' (first | rfl | split)

end Scallop
